import Mathlib

/-!
Verification of the karma range configuration model and karma-to-tier lookup
of `skarma` (`skarma/karma_config_parser.py`).

Python represents range bounds as either exact `int` values or the floats
`inf` / `-inf` (`math.inf`); comparisons between Python ints and these
values are exact, so the bounds live in the extended integers, modelled as
`WithBot (WithTop Int)`.
-/

/-- Extended integers: an integer, `+oo` or `-oo`.  Models the Python values
stored in `min_range` / `max_range` / `day_max` (an `int`, `inf` or `-inf`). -/
abbrev ExtInt : Type := WithBot (WithTop Int)

/-- The embedding of a Python `int` into the bound domain. -/
def ExtInt.ofInt (n : Int) : ExtInt := ((n : WithTop Int) : ExtInt)

/-- `math.inf`. -/
def ExtInt.posInf : ExtInt := ((⊤ : WithTop Int) : ExtInt)

/-- `-math.inf`. -/
def ExtInt.negInf : ExtInt := (⊥ : ExtInt)

theorem ExtInt.ofInt_le_ofInt {a b : Int} : ExtInt.ofInt a ≤ ExtInt.ofInt b ↔ a ≤ b := by
  simp [ExtInt.ofInt]

theorem ExtInt.ofInt_lt_posInf (k : Int) : ExtInt.ofInt k < ExtInt.posInf :=
  WithBot.coe_lt_coe.mpr (WithTop.coe_lt_top k)

theorem ExtInt.negInf_lt_ofInt (k : Int) : ExtInt.negInf < ExtInt.ofInt k := by
  simp [ExtInt.ofInt, ExtInt.negInf]

/-- Python exceptions that can escape the code under study.  `keyError` is a
bare `KeyError` (its argument is the missing key), `valueError` a `ValueError`
from `int()` or boolean conversion, `configParseError` the module's own
`ConfigParseError`, and `notFound` the `skarma.utils.algo.NotFound` exception. -/
inductive PyError : Type where
  | keyError (key : String)
  | valueError (msg : String)
  | configParseError (msg : String)
  | notFound
deriving DecidableEq, Repr

instance {ε α : Type} [DecidableEq ε] [DecidableEq α] : DecidableEq (Except ε α) := fun x y =>
  match x, y with
  | .ok a, .ok b =>
      if h : a = b then isTrue (by rw [h]) else isFalse (fun he => by cases he; exact h rfl)
  | .ok _, .error _ => isFalse (fun he => by cases he)
  | .error _, .ok _ => isFalse (fun he => by cases he)
  | .error e, .error f =>
      if h : e = f then isTrue (by rw [h]) else isFalse (fun he => by cases he; exact h rfl)

/-- `KarmaRange` dataclass.  `enable_plus` / `enable_minus` / `plus_value` /
`minus_value` are read with `SectionProxy.getboolean` / `.getint`, which return
`None` (not an error) when the key is absent, so the fields are `Option`-valued.
`timeout` is a `datetime.timedelta`, represented exactly by its total seconds. -/
structure KarmaRange : Type where
  name : String
  min_range : ExtInt
  max_range : ExtInt
  enable_plus : Option Bool
  enable_minus : Option Bool
  plus_value : Option Int
  minus_value : Option Int
  day_max : ExtInt
  timeout : Int
deriving DecidableEq, Repr, Inhabited

/-- `KarmaRange.karma_in_range` (deprecated in the source):
`(karma >= self.min_range) and (karma <= self.max_range)`. -/
def KarmaRange.karma_in_range (self : KarmaRange) (karma : Int) : Bool :=
  decide (ExtInt.ofInt karma ≥ self.min_range) && decide (ExtInt.ofInt karma ≤ self.max_range)

/-- `KarmaRange.__lt__(self, other)`: `other < self.min_range` — the int
`other` lies strictly before this range. -/
def KarmaRange.lt_int (self : KarmaRange) (other : Int) : Bool :=
  decide (ExtInt.ofInt other < self.min_range)

/-- `KarmaRange.__eq__(self, other)`: `self.min_range <= other <= self.max_range`
— the int `other` lies inside this range. -/
def KarmaRange.eq_int (self : KarmaRange) (other : Int) : Bool :=
  decide (self.min_range ≤ ExtInt.ofInt other) && decide (ExtInt.ofInt other ≤ self.max_range)

/-- Value of a decimal digit list, as computed by Python `int()`. -/
def digitsVal (cs : List Char) : Nat :=
  cs.foldl (fun acc c => acc * 10 + (c.toNat - 48)) 0

/-- A nonempty all-digit character list parses to its value, otherwise fails. -/
def parseDigits (cs : List Char) : Option Nat :=
  if cs ≠ [] ∧ cs.all (fun c => c.isDigit) then some (digitsVal cs) else none

/-- Python `int(str)` on a (stripped) literal: optional sign then digits. -/
def parseIntPyL : List Char → Option Int
  | '-' :: rest => (parseDigits rest).map (fun n => -(n : Int))
  | '+' :: rest => (parseDigits rest).map (fun n => (n : Int))
  | cs => (parseDigits cs).map (fun n => (n : Int))

/-- Python `int(str)` on a string. -/
def parseIntPy (s : String) : Option Int := parseIntPyL s.data

/-- `KarmaRange._read_int_or_inf`: `oo` / `+oo` map to `inf`, `-oo` to `-inf`,
anything else goes through `int()` (`none` models the `ValueError`). -/
def KarmaRange.read_int_or_inf (from_ : String) : Option ExtInt :=
  if from_ = "oo" ∨ from_ = "+oo" then some ExtInt.posInf
  else if from_ = "-oo" then some ExtInt.negInf
  else (parseIntPy from_).map ExtInt.ofInt

/-- A parsed configuration section: its name and its effective key/value pairs
(a `configparser.SectionProxy`). -/
structure Section : Type where
  name : String
  entries : List (String × String)
deriving DecidableEq, Repr

/-- `section[key]` as a total function (`None` when the key is absent). -/
def Section.find? (s : Section) (k : String) : Option String :=
  (s.entries.find? (fun p => decide (p.1 = k))).map Prod.snd

/-- `parsed[key]`: `SectionProxy.__getitem__`, raising `KeyError` when absent. -/
def Section.getitem (s : Section) (k : String) : Except PyError String :=
  match s.find? k with
  | some v => .ok v
  | none => .error (.keyError k)

/-- ASCII lowercasing of a string (Python `str.lower` on the config tokens). -/
def pyLower (s : String) : String :=
  String.mk (s.data.map Char.toLower)

/-- `configparser`'s `BOOLEAN_STATES` conversion (case-insensitive). -/
def pyBoolean (v : String) : Option Bool :=
  let lv := pyLower v
  if lv = "1" ∨ lv = "yes" ∨ lv = "true" ∨ lv = "on" then some true
  else if lv = "0" ∨ lv = "no" ∨ lv = "false" ∨ lv = "off" then some false
  else none

/-- `SectionProxy.getboolean(key)`: `None` when the key is absent (its default
fallback), `ValueError` on a malformed value. -/
def Section.getboolean (s : Section) (k : String) : Except PyError (Option Bool) :=
  match s.find? k with
  | none => .ok none
  | some v =>
    match pyBoolean v with
    | some b => .ok (some b)
    | none => .error (.valueError ("Not a boolean: " ++ v))

/-- `SectionProxy.getint(key)`: `None` when the key is absent, `ValueError`
on a malformed value. -/
def Section.getint (s : Section) (k : String) : Except PyError (Option Int) :=
  match s.find? k with
  | none => .ok none
  | some v =>
    match parseIntPy v with
    | some n => .ok (some n)
    | none => .error (.valueError ("invalid literal for int(): " ++ v))

/-- `cls._read_int_or_inf(parsed[key])`: `KeyError` when absent, `ValueError`
on a bad literal. -/
def readBound (s : Section) (k : String) : Except PyError ExtInt :=
  match s.getitem k with
  | .error e => .error e
  | .ok raw =>
    match KarmaRange.read_int_or_inf raw with
    | some e => .ok e
    | none => .error (.valueError ("invalid literal for int(): " ++ raw))

/-- `datetime.timedelta(seconds= / minutes= / hours= / days= / weeks= timeout_v)`
selected by the unit character, in total seconds; any other character raises
`ConfigParseError(\x27Invalid timeout symbol: ...\x27)` (line 96). -/
def timeoutSeconds (tv : Int) (c : Char) : Except PyError Int :=
  if c = 's' then .ok tv
  else if c = 'm' then .ok (60 * tv)
  else if c = 'h' then .ok (3600 * tv)
  else if c = 'd' then .ok (86400 * tv)
  else if c = 'w' then .ok (604800 * tv)
  else .error (.configParseError ("Invalid timeout symbol: " ++ String.mk [c]))

/-- Lines 82–96: `timeout_v = int(parsed[\x27timeout\x27][:-1])`,
`timeout_s = parsed[\x27timeout\x27][-1]`, then the unit dispatch. -/
def parseTimeoutRaw (tRaw : String) : Except PyError Int :=
  match parseIntPyL tRaw.data.dropLast with
  | none => .error (.valueError ("invalid literal for int(): " ++ String.mk tRaw.data.dropLast))
  | some tv =>
    match tRaw.data.getLast? with
    | none => .error (.valueError "string index out of range")
    | some c => timeoutSeconds tv c

/-- The `cls(...)` call of lines 99–109: constructor arguments evaluated in
source order; `KeyError`s escape to the surrounding `try`. -/
def buildRange (parsed : Section) (timeout : Int) : Except PyError KarmaRange :=
  match parsed.getitem "name" with
  | .error e => .error e
  | .ok name =>
  match readBound parsed "range_min" with
  | .error e => .error e
  | .ok min_range =>
  match readBound parsed "range_max" with
  | .error e => .error e
  | .ok max_range =>
  match parsed.getboolean "enable_plus" with
  | .error e => .error e
  | .ok enable_plus =>
  match parsed.getboolean "enable_minus" with
  | .error e => .error e
  | .ok enable_minus =>
  match parsed.getint "plus_value" with
  | .error e => .error e
  | .ok plus_value =>
  match parsed.getint "minus_value" with
  | .error e => .error e
  | .ok minus_value =>
  match readBound parsed "day_max" with
  | .error e => .error e
  | .ok day_max =>
    .ok { name, min_range, max_range, enable_plus, enable_minus,
          plus_value, minus_value, day_max, timeout }

/-- Message of line 111: `f\x27Value of \x7bstr(e)\x7d not found for section \x7bparsed.name\x7d\x27`
(`str` of a `KeyError` quotes its argument). -/
def missingFieldMsg (k : String) (sectionName : String) : String :=
  "Value of \x27" ++ k ++ "\x27 not found for section " ++ sectionName

/-- `KarmaRange.range_from_parsed_config` (lines 76–114).  The timeout field is
read and converted before the `try` block, so a missing `timeout` escapes as a
bare `KeyError`; only `KeyError`s raised inside the `cls(...)` call are
converted to `ConfigParseError`. -/
def KarmaRange.range_from_parsed_config (parsed : Section) : Except PyError KarmaRange :=
  match parsed.getitem "timeout" with
  | .error e => .error e
  | .ok tRaw =>
    match parseTimeoutRaw tRaw with
    | .error e => .error e
    | .ok timeout =>
      match buildRange parsed timeout with
      | .error (.keyError k) => .error (.configParseError (missingFieldMsg k parsed.name))
      | r => r

/-- `KarmaRangesManager`: the sorted ranges list plus the default range. -/
structure KarmaRangesManager : Type where
  ranges : List KarmaRange
  default_range : KarmaRange
deriving DecidableEq, Repr

/-- Sort key of line 157: ascending `min_range`. -/
def byMin (a b : KarmaRange) : Prop := a.min_range ≤ b.min_range

instance : DecidableRel byMin :=
  fun a b => inferInstanceAs (Decidable (a.min_range ≤ b.min_range))

instance : IsTotal KarmaRange byMin := ⟨fun a b => le_total a.min_range b.min_range⟩

instance : IsTrans KarmaRange byMin := ⟨fun _ _ _ hab hbc => le_trans hab hbc⟩

/-- `self.ranges.sort(key=operator.attrgetter(\x27min_range\x27))`: a stable sort
ascending by `min_range` (any stable sort computes the same list as Python's). -/
def sortRanges (rs : List KarmaRange) : List KarmaRange := List.insertionSort byMin rs

/-- `KarmaRangesManager._static_ranges_check` (lines 182–194): first index `i ≥ 1`
with `ranges[i].min_range <= ranges[i-1].max_range`, returning
`(ranges[i].name, ranges[i-1].name)`. -/
def static_ranges_check : List KarmaRange → Option (String × String)
  | a :: b :: rest =>
    if b.min_range ≤ a.max_range then some (b.name, a.name)
    else static_ranges_check (b :: rest)
  | _ => none

/-- The loop of lines 154–155: parse each section in order, appending to the
class-level `ranges` list; a parse failure aborts the loop, keeping the
entries already appended. -/
def appendLoop (acc : List KarmaRange) : List Section → Option PyError × List KarmaRange
  | [] => (none, acc)
  | s :: rest =>
    match KarmaRange.range_from_parsed_config s with
    | .error e => (some e, acc)
    | .ok r => appendLoop (acc ++ [r]) rest

/-- Message of line 161: `f\x27Ranges "\x7bres[0]\x7d" and "\x7bres[1]\x7d" overlap\x27`. -/
def overlapMsg (n1 n2 : String) : String :=
  "Ranges \"" ++ n1 ++ "\" and \"" ++ n2 ++ "\" overlap"

/-- `KarmaRangesManager.__init__` (lines 135–165) after the config file has been
read.  `classRanges` is the incoming state of the class-level attribute
`KarmaRangesManager.ranges` (initially `[]`, but retained across a failed
construction attempt); the second component of the result is that attribute's
state after the call. -/
def KarmaRangesManager.init (classRanges : List KarmaRange) (sections : List Section)
    (defaultSection : Section) : Except PyError KarmaRangesManager × List KarmaRange :=
  match appendLoop classRanges sections with
  | (some e, rs) => (.error e, rs)
  | (none, rs) =>
    match static_ranges_check (sortRanges rs) with
    | some p => (.error (.configParseError (overlapMsg p.1 p.2)), sortRanges rs)
    | none =>
      match KarmaRange.range_from_parsed_config defaultSection with
      | .error e => (.error e, sortRanges rs)
      | .ok d => (.ok ⟨sortRanges rs, d⟩, sortRanges rs)

/-- Modelled from the spec: the module `skarma/utils/algo.py` (the
`binary_search` function and the `NotFound` exception it raises) is not under
`src/`.  Per the spec (§4.3), lookup is "binary search over the sorted `ranges`
sequence" with the three-way interval comparison "a value v is less than a spec
if v < spec.min_range; a value v equals a spec if
spec.min_range ≤ v ≤ spec.max_range; otherwise v is greater than the spec",
realised by `KarmaRange.eq_int` / `KarmaRange.lt_int`; it returns the index of
the matching range, `none` modelling a raised `NotFound`.  The fuel argument
only bounds the recursion and never runs out when started at `rs.length`. -/
def bsearchFuel (karma : Int) (rs : List KarmaRange) : Nat → Nat → Nat → Option Nat
  | 0, _, _ => none
  | fuel + 1, lo, hi =>
    if lo < hi then
      if (rs.getD ((lo + hi) / 2) default).eq_int karma then some ((lo + hi) / 2)
      else if (rs.getD ((lo + hi) / 2) default).lt_int karma then
        bsearchFuel karma rs fuel lo ((lo + hi) / 2)
      else bsearchFuel karma rs fuel ((lo + hi) / 2 + 1) hi
    else none

/-- Modelled from the spec: `algo.binary_search(karma, self.ranges)` over the
whole list. -/
def binary_search (karma : Int) (rs : List KarmaRange) : Option Nat :=
  bsearchFuel karma rs rs.length 0 rs.length

/-- `KarmaRangesManager.get_range_by_karma` (lines 167–180): index into
`self.ranges` at the found position; a raised `algo.NotFound` is caught and
re-raised as `ConfigParseError(f\x27No ranges contain karma: \x7bkarma\x7d\x27)`. -/
def KarmaRangesManager.get_range_by_karma (self : KarmaRangesManager) (karma : Int) :
    Except PyError KarmaRange :=
  match binary_search karma self.ranges with
  | some i => .ok (self.ranges.getD i default)
  | none => .error (.configParseError ("No ranges contain karma: " ++ toString karma))

/-- A configuration section for a tier named `nm` with bounds `mn`/`mx` and
fixed remaining fields, used as a concrete test input. -/
def mkSec (nm mn mx : String) : Section :=
  ⟨nm, [("name", nm), ("range_min", mn), ("range_max", mx), ("enable_plus", "yes"),
        ("enable_minus", "yes"), ("plus_value", "1"), ("minus_value", "1"),
        ("day_max", "5"), ("timeout", "1h")]⟩

/-- The `KarmaRange` that `mkSec` parses to, for already-read bounds. -/
def mkRange (nm : String) (mn mx : ExtInt) : KarmaRange :=
  ⟨nm, mn, mx, some true, some true, some 1, some 1, ExtInt.ofInt 5, 3600⟩

/-- Position of a karma value relative to one range, as the spec words it. -/
inductive IntervalPos : Type where
  | before
  | within
  | after
deriving DecidableEq, Repr

/-- The spec's three-way interval comparison, stated from its words: "a value v
is less than a spec if v < spec.min_range; a value v equals a spec if
spec.min_range ≤ v ≤ spec.max_range; otherwise v is greater than the spec". -/
def classify (v : Int) (r : KarmaRange) : IntervalPos :=
  if ExtInt.ofInt v < r.min_range then .before
  else if r.min_range ≤ ExtInt.ofInt v ∧ ExtInt.ofInt v ≤ r.max_range then .within
  else .after

/-- Scenario 2 sections: overlapping tiers `[0,10]` and `[5,15]`. -/
def secA : Section := mkSec "a" "0" "10"

def secB : Section := mkSec "b" "5" "15"

/-- Scenario 3 section: tier `[20,30]`, leaving a gap from `secA`. -/
def secGapB : Section := mkSec "b" "20" "30"

/-- A reversed section: `range_min` 10 above `range_max` 0. -/
def secRev : Section := mkSec "rev" "10" "0"

def secDefault : Section := mkSec "DEFAULT" "0" "0"

/-- Scenario 1 sections. -/
def secToxic : Section := mkSec "toxic" "-oo" "-10"

def secNeutral : Section := mkSec "neutral" "-9" "9"

def secPositive : Section := mkSec "positive" "10" "oo"

/-- Sections with a required key removed, for the missing-field behaviour. -/
def secNoTimeout : Section := ⟨"nt", [("name", "nt")]⟩

def secNoName : Section :=
  ⟨"nn", [("range_min", "0"), ("range_max", "10"), ("enable_plus", "yes"),
          ("enable_minus", "yes"), ("plus_value", "1"), ("minus_value", "1"),
          ("day_max", "5"), ("timeout", "1h")]⟩

def secNoRangeMin : Section :=
  ⟨"nrmin", [("name", "nrmin"), ("range_max", "10"), ("enable_plus", "yes"),
             ("enable_minus", "yes"), ("plus_value", "1"), ("minus_value", "1"),
             ("day_max", "5"), ("timeout", "1h")]⟩

def secNoRangeMax : Section :=
  ⟨"nrmax", [("name", "nrmax"), ("range_min", "0"), ("enable_plus", "yes"),
             ("enable_minus", "yes"), ("plus_value", "1"), ("minus_value", "1"),
             ("day_max", "5"), ("timeout", "1h")]⟩

def secNoDayMax : Section :=
  ⟨"ndm", [("name", "ndm"), ("range_min", "0"), ("range_max", "10"),
           ("enable_plus", "yes"), ("enable_minus", "yes"), ("plus_value", "1"),
           ("minus_value", "1"), ("timeout", "1h")]⟩

/-- Section with the four getter-read keys removed: parsing still succeeds. -/
def secNoBooleans : Section :=
  ⟨"nb", [("name", "nb"), ("range_min", "0"), ("range_max", "10"),
          ("day_max", "5"), ("timeout", "1h")]⟩

def rangeA : KarmaRange := mkRange "a" (ExtInt.ofInt 0) (ExtInt.ofInt 10)

def rangeB : KarmaRange := mkRange "b" (ExtInt.ofInt 5) (ExtInt.ofInt 15)

def rangeGapB : KarmaRange := mkRange "b" (ExtInt.ofInt 20) (ExtInt.ofInt 30)

def rangeRev : KarmaRange := mkRange "rev" (ExtInt.ofInt 10) (ExtInt.ofInt 0)

def rangeDefault : KarmaRange := mkRange "DEFAULT" (ExtInt.ofInt 0) (ExtInt.ofInt 0)

def rangeToxic : KarmaRange := mkRange "toxic" ExtInt.negInf (ExtInt.ofInt (-10))

def rangeNeutral : KarmaRange := mkRange "neutral" (ExtInt.ofInt (-9)) (ExtInt.ofInt 9)

def rangePositive : KarmaRange := mkRange "positive" (ExtInt.ofInt 10) ExtInt.posInf

/-- The registry built from the reversed section alone. -/
def mgrRev : KarmaRangesManager := ⟨[rangeRev], rangeDefault⟩

/-- The registry of scenario 3 (tiers `[0,10]` and `[20,30]`, gap between). -/
def mgrGap : KarmaRangesManager := ⟨[rangeA, rangeGapB], rangeDefault⟩

/-- The registry of scenario 1. -/
def mgrS1 : KarmaRangesManager := ⟨[rangeToxic, rangeNeutral, rangePositive], rangeDefault⟩

theorem KarmaRange.eq_int_iff {r : KarmaRange} {k : Int} :
    r.eq_int k = true ↔ r.min_range ≤ ExtInt.ofInt k ∧ ExtInt.ofInt k ≤ r.max_range := by
  simp [KarmaRange.eq_int]

theorem KarmaRange.lt_int_iff {r : KarmaRange} {k : Int} :
    r.lt_int k = true ↔ ExtInt.ofInt k < r.min_range := by
  simp [KarmaRange.lt_int]

theorem KarmaRange.karma_in_range_iff {r : KarmaRange} {k : Int} :
    r.karma_in_range k = true ↔ r.min_range ≤ ExtInt.ofInt k ∧ ExtInt.ofInt k ≤ r.max_range := by
  simp [KarmaRange.karma_in_range, and_comm]

/-- The ranges list is sorted ascending by `min_range` (the state after
line 157). -/
def SortedByMin (rs : List KarmaRange) : Prop := List.Pairwise byMin rs

/-- Every adjacent pair passes the static check: the earlier range's
`max_range` lies strictly below the later one's `min_range`. -/
def GapChain (rs : List KarmaRange) : Prop :=
  List.Chain' (fun a b => a.max_range < b.min_range) rs

/-- The two closed intervals share a point. -/
def intersects (a b : KarmaRange) : Prop :=
  ∃ v : ExtInt, a.min_range ≤ v ∧ v ≤ a.max_range ∧ b.min_range ≤ v ∧ v ≤ b.max_range

theorem getD_eq_getElem (l : List KarmaRange) (d : KarmaRange) {n : Nat} (h : n < l.length) :
    l.getD n d = l[n] := by
  simp [List.getD_eq_getElem?_getD, List.getElem?_eq_getElem h]

theorem static_ranges_check_none_iff (rs : List KarmaRange) :
    static_ranges_check rs = none ↔ GapChain rs := by
  induction rs with
  | nil => simp [static_ranges_check, GapChain]
  | cons a t ih =>
    cases t with
    | nil => simp [static_ranges_check, GapChain]
    | cons b t2 =>
      by_cases h : b.min_range ≤ a.max_range
      · simp only [static_ranges_check, if_pos h, GapChain, List.chain'_cons]
        constructor
        · intro hfalse; exact absurd hfalse (by simp)
        · rintro ⟨hlt, -⟩; exact absurd h (not_le.mpr hlt)
      · simp only [static_ranges_check, if_neg h, GapChain, List.chain'_cons] at ih ⊢
        rw [ih]
        constructor
        · intro hc; exact ⟨not_le.mp h, hc⟩
        · rintro ⟨-, hc⟩; exact hc

theorem static_ranges_check_some {rs : List KarmaRange} {p : String × String}
    (h : static_ranges_check rs = some p) :
    ∃ i, ∃ hi : i + 1 < rs.length,
      p.1 = (rs[i + 1]).name ∧ p.2 = (rs[i]).name ∧ (rs[i + 1]).min_range ≤ (rs[i]).max_range := by
  induction rs with
  | nil => simp [static_ranges_check] at h
  | cons a t ih =>
    cases t with
    | nil => simp [static_ranges_check] at h
    | cons b t2 =>
      by_cases hab : b.min_range ≤ a.max_range
      · simp only [static_ranges_check, if_pos hab, Option.some_inj] at h
        refine ⟨0, by simp only [List.length_cons]; omega, ?_, ?_, ?_⟩ <;> simp [← h, hab]
      · simp only [static_ranges_check, if_neg hab] at h
        obtain ⟨i, hi, h1, h2, h3⟩ := ih h
        exact ⟨i + 1, by simpa [List.length_cons] using Nat.succ_lt_succ hi,
          by simpa using h1, by simpa using h2, by simpa using h3⟩

theorem sorted_min_le {rs : List KarmaRange} (hs : SortedByMin rs) {i j : Nat}
    (hij : i ≤ j) (hj : j < rs.length) :
    (rs[i]).min_range ≤ (rs[j]).min_range := by
  rcases Nat.lt_or_ge i j with hlt | hge
  · exact List.pairwise_iff_getElem.mp hs i j (lt_of_le_of_lt hij hj) hj hlt
  · have : i = j := le_antisymm hij hge
    subst this; exact le_refl _

theorem gap_adjacent {rs : List KarmaRange} (hg : GapChain rs) {i : Nat}
    (hi : i + 1 < rs.length) :
    (rs[i]).max_range < (rs[i + 1]).min_range := by
  have := List.chain'_iff_get.mp hg i (by omega)
  simpa [List.get_eq_getElem] using this

theorem gap_lt_of_lt {rs : List KarmaRange} (hs : SortedByMin rs) (hg : GapChain rs)
    {i j : Nat} (hij : i < j) (hj : j < rs.length) :
    (rs[i]).max_range < (rs[j]).min_range := by
  have hi1 : i + 1 < rs.length := by omega
  have h1 : (rs[i]).max_range < (rs[i + 1]).min_range := gap_adjacent hg hi1
  have h2 : (rs[i + 1]).min_range ≤ (rs[j]).min_range := sorted_min_le hs (by omega) hj
  exact lt_of_lt_of_le h1 h2

theorem disjoint_of_sorted_gap {rs : List KarmaRange} (hs : SortedByMin rs) (hg : GapChain rs)
    {i j : Nat} (hi : i < rs.length) (hj : j < rs.length) (hij : i ≠ j) :
    ¬ intersects (rs[i]) (rs[j]) := by
  rintro ⟨v, hia, hib, hja, hjb⟩
  rcases Nat.lt_or_ge i j with hlt | hge
  · have h := gap_lt_of_lt hs hg hlt hj
    exact lt_irrefl v (lt_of_le_of_lt hib (lt_of_lt_of_le h hja))
  · have hlt : j < i := lt_of_le_of_ne hge (fun h' => hij h'.symm)
    have h := gap_lt_of_lt hs hg hlt hi
    exact lt_irrefl v (lt_of_le_of_lt hjb (lt_of_lt_of_le h hia))

theorem check_fires_of_intersects {rs : List KarmaRange} (hs : SortedByMin rs)
    (hex : ∃ i j, ∃ hi : i < rs.length, ∃ hj : j < rs.length,
      i ≠ j ∧ intersects (rs[i]) (rs[j])) :
    ∃ p, static_ranges_check rs = some p := by
  cases hcheck : static_ranges_check rs with
  | some p => exact ⟨p, rfl⟩
  | none =>
    obtain ⟨i, j, hi, hj, hij, hint⟩ := hex
    have hg := (static_ranges_check_none_iff rs).mp hcheck
    exact absurd hint (disjoint_of_sorted_gap hs hg hi hj hij)

theorem mid_ge {lo hi : Nat} (h : lo ≤ hi) : lo ≤ (lo + hi) / 2 := by
  rw [Nat.le_div_iff_mul_le (by norm_num)]; omega

theorem mid_lt {lo hi : Nat} (h : lo < hi) : (lo + hi) / 2 < hi := by
  rw [Nat.div_lt_iff_lt_mul (by norm_num)]; omega

theorem bsearchFuel_sound {karma : Int} {rs : List KarmaRange} :
    ∀ {fuel lo hi i : Nat}, bsearchFuel karma rs fuel lo hi = some i →
      lo ≤ i ∧ i < hi ∧ (rs.getD i default).eq_int karma = true := by
  intro fuel
  induction fuel with
  | zero => intro lo hi i h; simp [bsearchFuel] at h
  | succ n ih =>
    intro lo hi i h
    simp only [bsearchFuel] at h
    split at h
    case isTrue hlohi =>
      split at h
      case isTrue heq =>
        cases h
        exact ⟨mid_ge (le_of_lt hlohi), mid_lt hlohi, heq⟩
      case isFalse heq =>
        split at h
        case isTrue hltb =>
          obtain ⟨h1, h2, h3⟩ := ih h
          exact ⟨h1, lt_trans h2 (mid_lt hlohi), h3⟩
        case isFalse hltb =>
          obtain ⟨h1, h2, h3⟩ := ih h
          exact ⟨le_trans (mid_ge (le_of_lt hlohi)) (le_trans (Nat.le_succ _) h1), h2, h3⟩
    case isFalse hlohi => cases h

theorem bsearchFuel_complete {karma : Int} {rs : List KarmaRange}
    (hs : SortedByMin rs) (hg : GapChain rs) :
    ∀ {fuel lo hi : Nat}, hi ≤ rs.length → hi - lo ≤ fuel →
      ∀ {j : Nat}, lo ≤ j → j < hi → (rs.getD j default).eq_int karma = true →
      ∃ i, bsearchFuel karma rs fuel lo hi = some i := by
  intro fuel
  induction fuel with
  | zero => intro lo hi _ hfuel j hlo hhi _; omega
  | succ n ih =>
    intro lo hi hlen hfuel j hlo hhi hj
    have hlohi : lo < hi := lt_of_le_of_lt hlo hhi
    have hmidlen : (lo + hi) / 2 < rs.length := lt_of_lt_of_le (mid_lt hlohi) hlen
    have hjlen : j < rs.length := lt_of_lt_of_le hhi hlen
    rw [getD_eq_getElem _ _ hjlen] at hj
    simp only [bsearchFuel, if_pos hlohi]
    by_cases heq : (rs.getD ((lo + hi) / 2) default).eq_int karma = true
    · rw [if_pos heq]; exact ⟨_, rfl⟩
    · rw [if_neg heq]
      rw [getD_eq_getElem _ _ hmidlen] at heq
      by_cases hltb : (rs.getD ((lo + hi) / 2) default).lt_int karma = true
      · rw [if_pos hltb]
        rw [getD_eq_getElem _ _ hmidlen] at hltb
        have hklt : ExtInt.ofInt karma < (rs[(lo + hi) / 2]).min_range :=
          KarmaRange.lt_int_iff.mp hltb
        have hjmid : j < (lo + hi) / 2 := by
          by_contra hge
          push_neg at hge
          rcases Nat.lt_or_ge ((lo + hi) / 2) j with hlt2 | hge2
          · have hmono := sorted_min_le hs (le_of_lt hlt2) hjlen
            have := KarmaRange.eq_int_iff.mp hj
            exact absurd (le_trans hmono this.1) (not_le.mpr hklt)
          · have : j = (lo + hi) / 2 := le_antisymm hge2 hge
            subst this
            exact heq hj
        exact ih (le_trans (le_of_lt (mid_lt hlohi)) hlen) (by omega) hlo hjmid
          (by rw [getD_eq_getElem _ _ hjlen]; exact hj)
      · rw [if_neg hltb]
        rw [getD_eq_getElem _ _ hmidlen] at hltb
        have hkge : (rs[(lo + hi) / 2]).min_range ≤ ExtInt.ofInt karma := by
          have := mt KarmaRange.lt_int_iff.mpr (by simpa using hltb)
          exact not_lt.mp this
        have hkgt : (rs[(lo + hi) / 2]).max_range < ExtInt.ofInt karma := by
          by_contra hle
          push_neg at hle
          exact heq (KarmaRange.eq_int_iff.mpr ⟨hkge, hle⟩)
        have hjmid : (lo + hi) / 2 + 1 ≤ j := by
          by_contra hge
          push_neg at hge
          rcases Nat.lt_or_ge j ((lo + hi) / 2) with hlt2 | hge2
          · have hgap := gap_lt_of_lt hs hg hlt2 hmidlen
            have hjiff := KarmaRange.eq_int_iff.mp hj
            exact lt_irrefl (ExtInt.ofInt karma)
              (lt_of_le_of_lt hjiff.2 (lt_of_lt_of_le hgap hkge))
          · have : j = (lo + hi) / 2 := by omega
            subst this
            exact heq hj
        exact ih hlen (by have := mid_ge (le_of_lt hlohi); omega) hjmid hhi
          (by rw [getD_eq_getElem _ _ hjlen]; exact hj)

theorem binary_search_sound {karma : Int} {rs : List KarmaRange} {i : Nat}
    (h : binary_search karma rs = some i) :
    i < rs.length ∧ (rs.getD i default).eq_int karma = true := by
  obtain ⟨-, h2, h3⟩ := bsearchFuel_sound h
  exact ⟨h2, h3⟩

theorem binary_search_complete {karma : Int} {rs : List KarmaRange}
    (hs : SortedByMin rs) (hg : GapChain rs) {j : Nat} (hj : j < rs.length)
    (hjk : (rs.getD j default).eq_int karma = true) :
    ∃ i, binary_search karma rs = some i :=
  bsearchFuel_complete hs hg (le_refl _) (by omega) (Nat.zero_le j) hj hjk

theorem get_range_ok_iff {m : KarmaRangesManager} (hs : SortedByMin m.ranges)
    (hg : GapChain m.ranges) {karma : Int} {T : KarmaRange} :
    m.get_range_by_karma karma = .ok T ↔ T ∈ m.ranges ∧ T.eq_int karma = true := by
  constructor
  · intro h
    unfold KarmaRangesManager.get_range_by_karma at h
    cases hbs : binary_search karma m.ranges with
    | none => rw [hbs] at h; cases h
    | some i =>
      rw [hbs] at h
      obtain ⟨hi, heq⟩ := binary_search_sound hbs
      cases h
      rw [getD_eq_getElem _ _ hi] at heq ⊢
      exact ⟨List.getElem_mem hi, heq⟩
  · rintro ⟨hmem, heq⟩
    obtain ⟨j, hj, hT⟩ := List.mem_iff_getElem.mp hmem
    subst hT
    have hjd : ((m.ranges).getD j default).eq_int karma = true := by
      rw [getD_eq_getElem _ _ hj]; exact heq
    obtain ⟨i, hbs⟩ := binary_search_complete hs hg hj hjd
    obtain ⟨hi, heqi⟩ := binary_search_sound hbs
    unfold KarmaRangesManager.get_range_by_karma
    rw [hbs]
    dsimp only
    rw [getD_eq_getElem _ _ hi]
    rw [getD_eq_getElem _ _ hi] at heqi
    by_cases hij : i = j
    · subst hij; rfl
    · exfalso
      apply disjoint_of_sorted_gap hs hg hi hj hij
      have h1 := KarmaRange.eq_int_iff.mp heqi
      have h2 := KarmaRange.eq_int_iff.mp heq
      exact ⟨ExtInt.ofInt karma, h1.1, h1.2, h2.1, h2.2⟩

theorem get_range_error_of_no_match {m : KarmaRangesManager} {karma : Int}
    (hnone : ∀ T ∈ m.ranges, ¬ T.eq_int karma = true) :
    m.get_range_by_karma karma =
      .error (.configParseError ("No ranges contain karma: " ++ toString karma)) := by
  unfold KarmaRangesManager.get_range_by_karma
  cases hbs : binary_search karma m.ranges with
  | none => rfl
  | some i =>
    exfalso
    obtain ⟨hi, heq⟩ := binary_search_sound hbs
    rw [getD_eq_getElem _ _ hi] at heq
    exact hnone _ (List.getElem_mem hi) heq

theorem init_ok_inv {prev : List KarmaRange} {secs : List Section} {dflt : Section}
    {m : KarmaRangesManager} {st : List KarmaRange}
    (h : KarmaRangesManager.init prev secs dflt = (.ok m, st)) :
    SortedByMin m.ranges ∧ GapChain m.ranges ∧ st = m.ranges := by
  unfold KarmaRangesManager.init at h
  split at h
  · simp at h
  · rename_i rs heqA
    split at h
    · simp at h
    · rename_i hchk
      split at h
      · simp at h
      · rename_i d hd
        rw [Prod.ext_iff] at h
        obtain ⟨h1, h2⟩ := h
        injection h1 with h1
        subst h1
        exact ⟨List.sorted_insertionSort byMin rs,
          (static_ranges_check_none_iff _).mp hchk, h2.symm⟩

theorem init_parse_fail {prev : List KarmaRange} {secs : List Section} {dflt : Section}
    {e : PyError} {rs : List KarmaRange} (h : appendLoop prev secs = (some e, rs)) :
    KarmaRangesManager.init prev secs dflt = (.error e, rs) := by
  unfold KarmaRangesManager.init
  rw [h]

theorem init_overlap_fail {prev : List KarmaRange} {secs : List Section} {dflt : Section}
    {rs : List KarmaRange} {p : String × String} (h : appendLoop prev secs = (none, rs))
    (hchk : static_ranges_check (sortRanges rs) = some p) :
    KarmaRangesManager.init prev secs dflt =
      (.error (.configParseError (overlapMsg p.1 p.2)), sortRanges rs) := by
  unfold KarmaRangesManager.init
  rw [h]
  dsimp only
  rw [hchk]

theorem init_default_fail {prev : List KarmaRange} {secs : List Section} {dflt : Section}
    {rs : List KarmaRange} {e : PyError} (h : appendLoop prev secs = (none, rs))
    (hchk : static_ranges_check (sortRanges rs) = none)
    (hd : KarmaRange.range_from_parsed_config dflt = .error e) :
    KarmaRangesManager.init prev secs dflt = (.error e, sortRanges rs) := by
  unfold KarmaRangesManager.init
  rw [h]
  dsimp only
  rw [hchk]
  dsimp only
  rw [hd]

theorem intersects_symm {a b : KarmaRange} (h : intersects a b) : intersects b a := by
  obtain ⟨v, h1, h2, h3, h4⟩ := h
  exact ⟨v, h3, h4, h1, h2⟩

theorem overlap_exists_iff_not_pairwise {l : List KarmaRange} :
    (∃ i j, ∃ hi : i < l.length, ∃ hj : j < l.length, i ≠ j ∧ intersects (l[i]) (l[j])) ↔
      ¬ l.Pairwise (fun a b => ¬ intersects a b) := by
  rw [List.pairwise_iff_getElem]
  constructor
  · rintro ⟨i, j, hi, hj, hij, hint⟩ hp
    rcases Nat.lt_or_ge i j with hlt | hge
    · exact hp i j hi hj hlt hint
    · have hlt : j < i := lt_of_le_of_ne hge (fun h' => hij h'.symm)
      exact hp j i hj hi hlt (intersects_symm hint)
  · intro hnp
    by_contra hex
    push_neg at hex
    exact hnp (fun i j hi hj hij hint => hex i j hi hj (Nat.ne_of_lt hij) hint)

theorem overlap_transfer {l l2 : List KarmaRange} (hperm : List.Perm l l2)
    (hex : ∃ i j, ∃ hi : i < l.length, ∃ hj : j < l.length, i ≠ j ∧ intersects (l[i]) (l[j])) :
    ∃ i j, ∃ hi : i < l2.length, ∃ hj : j < l2.length, i ≠ j ∧ intersects (l2[i]) (l2[j]) := by
  rw [overlap_exists_iff_not_pairwise] at hex ⊢
  intro hp
  exact hex ((hperm.pairwise_iff (fun h hint => h (intersects_symm hint))).mpr hp)

theorem range_from_parsed_config_ok {s : Section} {tRaw : String} {tv : Int}
    (ht : s.getitem "timeout" = .ok tRaw) (htv : parseTimeoutRaw tRaw = .ok tv)
    {nm : String} (hnm : s.getitem "name" = .ok nm)
    {mn : ExtInt} (hmn : readBound s "range_min" = .ok mn)
    {mx : ExtInt} (hmx : readBound s "range_max" = .ok mx)
    {ep : Option Bool} (hep : s.getboolean "enable_plus" = .ok ep)
    {em : Option Bool} (hem : s.getboolean "enable_minus" = .ok em)
    {pv : Option Int} (hpv : s.getint "plus_value" = .ok pv)
    {mv : Option Int} (hmv : s.getint "minus_value" = .ok mv)
    {dm : ExtInt} (hdm : readBound s "day_max" = .ok dm) :
    KarmaRange.range_from_parsed_config s = .ok ⟨nm, mn, mx, ep, em, pv, mv, dm, tv⟩ := by
  unfold KarmaRange.range_from_parsed_config
  rw [ht]
  dsimp only
  rw [htv]
  dsimp only
  unfold buildRange
  rw [hnm]
  dsimp only
  rw [hmn]
  dsimp only
  rw [hmx]
  dsimp only
  rw [hep]
  dsimp only
  rw [hem]
  dsimp only
  rw [hpv]
  dsimp only
  rw [hmv]
  dsimp only
  rw [hdm]

theorem range_from_parsed_config_keyError {s : Section} {tRaw : String} {tv : Int}
    (ht : s.getitem "timeout" = .ok tRaw) (htv : parseTimeoutRaw tRaw = .ok tv)
    {k : String} (hb : buildRange s tv = .error (.keyError k)) :
    KarmaRange.range_from_parsed_config s =
      .error (.configParseError (missingFieldMsg k s.name)) := by
  unfold KarmaRange.range_from_parsed_config
  rw [ht]
  dsimp only
  rw [htv]
  dsimp only
  rw [hb]

/-- C7: the three-way interval comparator used by the lookup classifies a karma
value v against a range exactly as the spec's ordering: `__lt__` (with the
range as `self` and the value as `other`, the orientation `ranges[mid] < karma`
dispatches to) holds iff v lies before the range (v < min_range), `__eq__`
holds iff v lies within it (min_range ≤ v ≤ max_range), and both are false iff
v lies after it. -/
theorem spec_C7 (r : KarmaRange) (v : Int) :
    (r.lt_int v = true ↔ classify v r = IntervalPos.before) ∧
    (r.eq_int v = true ↔ classify v r = IntervalPos.within) ∧
    ((r.lt_int v = false ∧ r.eq_int v = false) ↔ classify v r = IntervalPos.after) := by
  by_cases h1 : ExtInt.ofInt v < r.min_range
  · have h2 : ¬ (r.min_range ≤ ExtInt.ofInt v ∧ ExtInt.ofInt v ≤ r.max_range) :=
      fun hc => absurd hc.1 (not_le.mpr h1)
    simp [classify, h1, h2, KarmaRange.lt_int, KarmaRange.eq_int]
  · by_cases h2 : r.min_range ≤ ExtInt.ofInt v ∧ ExtInt.ofInt v ≤ r.max_range
    · simp [classify, h1, h2, KarmaRange.lt_int, KarmaRange.eq_int]
    · have h1' : r.min_range ≤ ExtInt.ofInt v := not_lt.mp h1
      have h2' : r.max_range < ExtInt.ofInt v := by
        by_contra hle
        exact h2 ⟨h1', not_lt.mp hle⟩
      simp [classify, h1, h2, KarmaRange.lt_int, KarmaRange.eq_int]
      exact fun _ => h2'

/-- C10: the deprecated per-range membership test `karma_in_range` computes
exactly the same boolean as the lookup comparator `__eq__`, and both decide
`min_range ≤ k ≤ max_range`. -/
theorem spec_C10 (r : KarmaRange) (k : Int) :
    r.karma_in_range k = r.eq_int k ∧
    (r.karma_in_range k = true ↔
      (r.min_range ≤ ExtInt.ofInt k ∧ ExtInt.ofInt k ≤ r.max_range)) := by
  constructor
  · rw [Bool.eq_iff_iff]
    rw [KarmaRange.karma_in_range_iff, KarmaRange.eq_int_iff]
  · exact KarmaRange.karma_in_range_iff

/-- C9: `range_min`/`range_max`/`day_max` parse integer literals to their exact
value, `oo`/`+oo` to positive infinity and `-oo` to negative infinity; infinite
bounds compare normally (every finite value is above `-oo` and below `+oo`), so
a range whose `max_range` is `+oo` contains every value at or above its
`min_range`. -/
theorem spec_C9 :
    (KarmaRange.read_int_or_inf "oo" = some ExtInt.posInf ∧
     KarmaRange.read_int_or_inf "+oo" = some ExtInt.posInf ∧
     KarmaRange.read_int_or_inf "-oo" = some ExtInt.negInf) ∧
    (∀ (s : String) (v : Int), parseIntPy s = some v →
      KarmaRange.read_int_or_inf s = some (ExtInt.ofInt v)) ∧
    (∀ k : Int, ExtInt.negInf < ExtInt.ofInt k ∧ ExtInt.ofInt k < ExtInt.posInf) ∧
    (∀ r : KarmaRange, r.max_range = ExtInt.posInf →
      ∀ k : Int, r.min_range ≤ ExtInt.ofInt k → r.eq_int k = true) := by
  refine ⟨⟨by decide, by decide, by decide⟩, ?_, ?_, ?_⟩
  · intro s v hv
    have h1 : s ≠ "oo" := by
      intro he; subst he
      have : parseIntPy "oo" = none := by decide
      rw [this] at hv; cases hv
    have h2 : s ≠ "+oo" := by
      intro he; subst he
      have : parseIntPy "+oo" = none := by decide
      rw [this] at hv; cases hv
    have h3 : s ≠ "-oo" := by
      intro he; subst he
      have : parseIntPy "-oo" = none := by decide
      rw [this] at hv; cases hv
    unfold KarmaRange.read_int_or_inf
    rw [if_neg (by tauto), if_neg h3, hv]
    rfl
  · exact fun k => ⟨ExtInt.negInf_lt_ofInt k, ExtInt.ofInt_lt_posInf k⟩
  · intro r hmax k hmin
    exact KarmaRange.eq_int_iff.mpr
      ⟨hmin, by rw [hmax]; exact le_of_lt (ExtInt.ofInt_lt_posInf k)⟩

/-- C9 witness: `"7"` reads as 7; a tier `[10, +oo)` parsed from `"oo"`
contains `1e9`. -/
theorem spec_C9_witness :
    parseIntPy "7" = some 7 ∧
    KarmaRange.read_int_or_inf "7" = some (ExtInt.ofInt 7) ∧
    rangePositive.min_range ≤ ExtInt.ofInt 1000000000 ∧
    rangePositive.eq_int 1000000000 = true :=
  ⟨by decide, spec_C9.2.1 "7" 7 (by decide), by decide,
    spec_C9.2.2.2 rangePositive rfl 1000000000 (by decide)⟩

/-- C8: a timeout literal written as an integer magnitude followed by one unit
character parses to that many seconds / minutes / hours / days / weeks; any
other trailing unit character fails with the `Invalid timeout symbol` error
(the source's `InvalidTimeoutUnit` case, raised as `ConfigParseError`). -/
theorem spec_C8 (ds : List Char) (v : Int) (hv : parseIntPyL ds = some v) :
    parseTimeoutRaw (String.mk (ds ++ ['s'])) = .ok v ∧
    parseTimeoutRaw (String.mk (ds ++ ['m'])) = .ok (60 * v) ∧
    parseTimeoutRaw (String.mk (ds ++ ['h'])) = .ok (3600 * v) ∧
    parseTimeoutRaw (String.mk (ds ++ ['d'])) = .ok (86400 * v) ∧
    parseTimeoutRaw (String.mk (ds ++ ['w'])) = .ok (604800 * v) ∧
    ∀ c : Char, c ≠ 's' → c ≠ 'm' → c ≠ 'h' → c ≠ 'd' → c ≠ 'w' →
      parseTimeoutRaw (String.mk (ds ++ [c])) =
        .error (.configParseError ("Invalid timeout symbol: " ++ String.mk [c])) := by
  have hgen : ∀ c : Char, parseTimeoutRaw (String.mk (ds ++ [c])) = timeoutSeconds v c := by
    intro c
    unfold parseTimeoutRaw
    have hdata : (String.mk (ds ++ [c])).data = ds ++ [c] := rfl
    rw [hdata, List.dropLast_concat, hv, List.getLast?_concat]
  refine ⟨?_, ?_, ?_, ?_, ?_, ?_⟩
  · rw [hgen]; rfl
  · rw [hgen]; rfl
  · rw [hgen]; rfl
  · rw [hgen]; rfl
  · rw [hgen]; rfl
  · intro c hs hm hh hd hw
    rw [hgen]
    unfold timeoutSeconds
    rw [if_neg hs, if_neg hm, if_neg hh, if_neg hd, if_neg hw]

/-- C8 witness: `"2h"` parses to 2 hours (7200 seconds); `"5x"` fails with the
invalid-unit error. -/
theorem spec_C8_witness :
    parseIntPyL ['2'] = some 2 ∧
    parseTimeoutRaw (String.mk (['2'] ++ ['h'])) = .ok (3600 * 2) ∧
    parseIntPyL ['5'] = some 5 ∧
    parseTimeoutRaw (String.mk (['5'] ++ ['x'])) =
      .error (.configParseError ("Invalid timeout symbol: " ++ String.mk ['x'])) :=
  ⟨by decide, (spec_C8 ['2'] 2 (by decide)).2.2.1, by decide,
    (spec_C8 ['5'] 5 (by decide)).2.2.2.2.2 'x' (by decide) (by decide) (by decide)
      (by decide) (by decide)⟩

/-- C5 counterexample: a section with `range_min` 10 and `range_max` 0 parses
successfully into a `KarmaRange` with `min_range > max_range`; no `InvalidRange`
validation exists in `range_from_parsed_config`. -/
theorem spec_C5_counterexample :
    KarmaRange.range_from_parsed_config secRev = .ok rangeRev ∧
    rangeRev.max_range < rangeRev.min_range := by
  exact ⟨by decide, by decide⟩

/-- C5 amended: field parsing performs no `min_range ≤ max_range` validation at
all: whenever every field reads successfully, parsing succeeds and the
resulting record carries exactly the values read for each field — in
particular the bounds are taken verbatim (never clamped) and may be reversed. -/
theorem spec_C5 (s : Section) (tRaw : String) (tv : Int)
    (ht : s.getitem "timeout" = .ok tRaw) (htv : parseTimeoutRaw tRaw = .ok tv)
    (nm : String) (hnm : s.getitem "name" = .ok nm)
    (mn : ExtInt) (hmn : readBound s "range_min" = .ok mn)
    (mx : ExtInt) (hmx : readBound s "range_max" = .ok mx)
    (ep : Option Bool) (hep : s.getboolean "enable_plus" = .ok ep)
    (em : Option Bool) (hem : s.getboolean "enable_minus" = .ok em)
    (pv : Option Int) (hpv : s.getint "plus_value" = .ok pv)
    (mv : Option Int) (hmv : s.getint "minus_value" = .ok mv)
    (dm : ExtInt) (hdm : readBound s "day_max" = .ok dm) :
    KarmaRange.range_from_parsed_config s = .ok ⟨nm, mn, mx, ep, em, pv, mv, dm, tv⟩ :=
  range_from_parsed_config_ok ht htv hnm hmn hmx hep hem hpv hmv hdm

/-- C5 witness: the amended characterization applied to the reversed section,
whose bounds read as 10 and 0. -/
theorem spec_C5_witness :
    readBound secRev "range_min" = .ok (ExtInt.ofInt 10) ∧
    readBound secRev "range_max" = .ok (ExtInt.ofInt 0) ∧
    KarmaRange.range_from_parsed_config secRev =
      .ok ⟨"rev", ExtInt.ofInt 10, ExtInt.ofInt 0, some true, some true, some 1, some 1,
           ExtInt.ofInt 5, 3600⟩ :=
  ⟨by decide, by decide,
    spec_C5 secRev "1h" 3600 (by decide) (by decide) "rev" (by decide)
      (ExtInt.ofInt 10) (by decide) (ExtInt.ofInt 0) (by decide)
      (some true) (by decide) (some true) (by decide)
      (some 1) (by decide) (some 1) (by decide) (ExtInt.ofInt 5) (by decide)⟩

/-- C6 counterexample: a section missing `enable_plus`, `enable_minus`,
`plus_value` and `minus_value` parses successfully into a record whose
corresponding fields are `None` (no error at all), and a section missing
`timeout` fails with a bare `KeyError`, not a `ConfigParseError` naming the
section. -/
theorem spec_C6_counterexample :
    KarmaRange.range_from_parsed_config secNoBooleans =
      .ok ⟨"nb", ExtInt.ofInt 0, ExtInt.ofInt 10, none, none, none, none,
           ExtInt.ofInt 5, 3600⟩ ∧
    KarmaRange.range_from_parsed_config secNoTimeout = .error (.keyError "timeout") := by
  exact ⟨by decide, by decide⟩

/-- C6 amended: only for the keys read with `parsed[...]` inside the `try`
block — `name`, `range_min`, `range_max`, `day_max` — does a missing key fail
with the `ConfigParseError` naming the key and the section.  A missing
`timeout` (read before the `try`) escapes as a bare `KeyError` naming only the
key, and missing `enable_plus` / `enable_minus` / `plus_value` / `minus_value`
(read with `getboolean` / `getint`) cause no error: parsing succeeds with the
corresponding fields `None`. -/
theorem spec_C6 :
    (∀ s : Section, s.find? "timeout" = none →
      KarmaRange.range_from_parsed_config s = .error (.keyError "timeout")) ∧
    (∀ (s : Section) (tRaw : String) (tv : Int),
      s.getitem "timeout" = .ok tRaw → parseTimeoutRaw tRaw = .ok tv →
      s.find? "name" = none →
      KarmaRange.range_from_parsed_config s =
        .error (.configParseError (missingFieldMsg "name" s.name))) ∧
    (∀ (s : Section) (tRaw : String) (tv : Int) (nm : String),
      s.getitem "timeout" = .ok tRaw → parseTimeoutRaw tRaw = .ok tv →
      s.getitem "name" = .ok nm → s.find? "range_min" = none →
      KarmaRange.range_from_parsed_config s =
        .error (.configParseError (missingFieldMsg "range_min" s.name))) ∧
    (∀ (s : Section) (tRaw : String) (tv : Int) (nm : String) (mn : ExtInt),
      s.getitem "timeout" = .ok tRaw → parseTimeoutRaw tRaw = .ok tv →
      s.getitem "name" = .ok nm → readBound s "range_min" = .ok mn →
      s.find? "range_max" = none →
      KarmaRange.range_from_parsed_config s =
        .error (.configParseError (missingFieldMsg "range_max" s.name))) ∧
    (∀ (s : Section) (tRaw : String) (tv : Int) (nm : String) (mn mx : ExtInt)
        (ep em : Option Bool) (pv mv : Option Int),
      s.getitem "timeout" = .ok tRaw → parseTimeoutRaw tRaw = .ok tv →
      s.getitem "name" = .ok nm → readBound s "range_min" = .ok mn →
      readBound s "range_max" = .ok mx →
      s.getboolean "enable_plus" = .ok ep → s.getboolean "enable_minus" = .ok em →
      s.getint "plus_value" = .ok pv → s.getint "minus_value" = .ok mv →
      s.find? "day_max" = none →
      KarmaRange.range_from_parsed_config s =
        .error (.configParseError (missingFieldMsg "day_max" s.name))) ∧
    (∀ (s : Section) (tRaw : String) (tv : Int) (nm : String) (mn mx dm : ExtInt),
      s.getitem "timeout" = .ok tRaw → parseTimeoutRaw tRaw = .ok tv →
      s.getitem "name" = .ok nm → readBound s "range_min" = .ok mn →
      readBound s "range_max" = .ok mx → readBound s "day_max" = .ok dm →
      s.find? "enable_plus" = none → s.find? "enable_minus" = none →
      s.find? "plus_value" = none → s.find? "minus_value" = none →
      KarmaRange.range_from_parsed_config s =
        .ok ⟨nm, mn, mx, none, none, none, none, dm, tv⟩) := by
  refine ⟨?_, ?_, ?_, ?_, ?_, ?_⟩
  · intro s h
    have ht : s.getitem "timeout" = .error (.keyError "timeout") := by
      unfold Section.getitem; rw [h]
    unfold KarmaRange.range_from_parsed_config
    rw [ht]
  · intro s tRaw tv ht htv h
    refine range_from_parsed_config_keyError ht htv ?_
    have hnm : s.getitem "name" = .error (.keyError "name") := by
      unfold Section.getitem; rw [h]
    unfold buildRange
    rw [hnm]
  · intro s tRaw tv nm ht htv hnm h
    refine range_from_parsed_config_keyError ht htv ?_
    have hrb : readBound s "range_min" = .error (.keyError "range_min") := by
      unfold readBound Section.getitem; rw [h]
    unfold buildRange
    rw [hnm]
    dsimp only
    rw [hrb]
  · intro s tRaw tv nm mn ht htv hnm hmn h
    refine range_from_parsed_config_keyError ht htv ?_
    have hrb : readBound s "range_max" = .error (.keyError "range_max") := by
      unfold readBound Section.getitem; rw [h]
    unfold buildRange
    rw [hnm]
    dsimp only
    rw [hmn]
    dsimp only
    rw [hrb]
  · intro s tRaw tv nm mn mx ep em pv mv ht htv hnm hmn hmx hep hem hpv hmv h
    refine range_from_parsed_config_keyError ht htv ?_
    have hrb : readBound s "day_max" = .error (.keyError "day_max") := by
      unfold readBound Section.getitem; rw [h]
    unfold buildRange
    rw [hnm]
    dsimp only
    rw [hmn]
    dsimp only
    rw [hmx]
    dsimp only
    rw [hep]
    dsimp only
    rw [hem]
    dsimp only
    rw [hpv]
    dsimp only
    rw [hmv]
    dsimp only
    rw [hrb]
  · intro s tRaw tv nm mn mx dm ht htv hnm hmn hmx hdm h1 h2 h3 h4
    have hep : s.getboolean "enable_plus" = .ok none := by
      unfold Section.getboolean; rw [h1]
    have hem : s.getboolean "enable_minus" = .ok none := by
      unfold Section.getboolean; rw [h2]
    have hpv : s.getint "plus_value" = .ok none := by
      unfold Section.getint; rw [h3]
    have hmv : s.getint "minus_value" = .ok none := by
      unfold Section.getint; rw [h4]
    exact range_from_parsed_config_ok ht htv hnm hmn hmx hep hem hpv hmv hdm

/-- C6 witness: each behaviour exercised on a concrete section — `timeout`
missing gives a bare key error; each of the four strict keys missing gives the
`ConfigParseError` naming it and the section; the four getter keys missing
give a successful parse with `None` fields. -/
theorem spec_C6_witness :
    KarmaRange.range_from_parsed_config secNoTimeout = .error (.keyError "timeout") ∧
    KarmaRange.range_from_parsed_config secNoName =
      .error (.configParseError (missingFieldMsg "name" "nn")) ∧
    KarmaRange.range_from_parsed_config secNoRangeMin =
      .error (.configParseError (missingFieldMsg "range_min" "nrmin")) ∧
    KarmaRange.range_from_parsed_config secNoRangeMax =
      .error (.configParseError (missingFieldMsg "range_max" "nrmax")) ∧
    KarmaRange.range_from_parsed_config secNoDayMax =
      .error (.configParseError (missingFieldMsg "day_max" "ndm")) ∧
    KarmaRange.range_from_parsed_config secNoBooleans =
      .ok ⟨"nb", ExtInt.ofInt 0, ExtInt.ofInt 10, none, none, none, none,
           ExtInt.ofInt 5, 3600⟩ :=
  ⟨spec_C6.1 secNoTimeout (by decide),
   spec_C6.2.1 secNoName "1h" 3600 (by decide) (by decide) (by decide),
   spec_C6.2.2.1 secNoRangeMin "1h" 3600 "nrmin" (by decide) (by decide) (by decide)
     (by decide),
   spec_C6.2.2.2.1 secNoRangeMax "1h" 3600 "nrmax" (ExtInt.ofInt 0) (by decide)
     (by decide) (by decide) (by decide) (by decide),
   spec_C6.2.2.2.2.1 secNoDayMax "1h" 3600 "ndm" (ExtInt.ofInt 0) (ExtInt.ofInt 10)
     (some true) (some true) (some 1) (some 1) (by decide) (by decide) (by decide)
     (by decide) (by decide) (by decide) (by decide) (by decide) (by decide) (by decide),
   spec_C6.2.2.2.2.2 secNoBooleans "1h" 3600 "nb" (ExtInt.ofInt 0) (ExtInt.ofInt 10)
     (ExtInt.ofInt 5) (by decide) (by decide) (by decide) (by decide) (by decide)
     (by decide) (by decide) (by decide) (by decide) (by decide)⟩

theorem appendLoop_mem {r : KarmaRange} :
    ∀ (secs : List Section) (acc : List KarmaRange), r ∈ acc → r ∈ (appendLoop acc secs).2 := by
  intro secs
  induction secs with
  | nil => intro acc h; exact h
  | cons s rest ih =>
    intro acc h
    simp only [appendLoop]
    cases hp : KarmaRange.range_from_parsed_config s with
    | error e => exact h
    | ok r2 => exact ih (acc ++ [r2]) (List.mem_append_left _ h)

theorem init_state_mem {prev : List KarmaRange} {secs : List Section} {dflt : Section}
    {res : Except PyError KarmaRangesManager} {st : List KarmaRange}
    (h : KarmaRangesManager.init prev secs dflt = (res, st)) :
    ∀ r ∈ prev, r ∈ st := by
  intro r hr
  have hal : r ∈ (appendLoop prev secs).2 := appendLoop_mem secs prev hr
  unfold KarmaRangesManager.init at h
  split at h
  · rename_i rs heq
    cases h
    rw [heq] at hal
    exact hal
  · rename_i rs heq
    rw [heq] at hal
    split at h
    · cases h
      simpa [sortRanges] using hal
    · split at h
      · cases h
        simpa [sortRanges] using hal
      · cases h
        simpa [sortRanges] using hal

/-- C4 counterexample: constructing from the two overlapping sections of
scenario 2 fails, yet the class-level `ranges` attribute (second component)
holds the two entries appended by the failed attempt — partial state survives,
so construction is not atomic. -/
theorem spec_C4_counterexample :
    (KarmaRangesManager.init [] [secA, secB] secDefault).1 =
      .error (.configParseError "Ranges \"b\" and \"a\" overlap") ∧
    (KarmaRangesManager.init [] [secA, secB] secDefault).2 = [rangeA, rangeB] ∧
    [rangeA, rangeB] ≠ ([] : List KarmaRange) := by
  exact ⟨by decide, by decide, by decide⟩

/-- C4 amended: on any construction failure no manager value is produced (the
result is the error), but the class-level `ranges` list is not rolled back: a
mid-loop parse failure leaves the entries appended so far, an overlap or
default-section failure leaves the fully appended, sorted list, and entries
present before the attempt always remain. -/
theorem spec_C4 :
    (∀ (prev : List KarmaRange) (secs : List Section) (dflt : Section)
        (e : PyError) (rs : List KarmaRange),
      appendLoop prev secs = (some e, rs) →
      KarmaRangesManager.init prev secs dflt = (.error e, rs)) ∧
    (∀ (prev : List KarmaRange) (secs : List Section) (dflt : Section)
        (rs : List KarmaRange) (p : String × String),
      appendLoop prev secs = (none, rs) →
      static_ranges_check (sortRanges rs) = some p →
      KarmaRangesManager.init prev secs dflt =
        (.error (.configParseError (overlapMsg p.1 p.2)), sortRanges rs)) ∧
    (∀ (prev : List KarmaRange) (secs : List Section) (dflt : Section)
        (rs : List KarmaRange) (e : PyError),
      appendLoop prev secs = (none, rs) →
      static_ranges_check (sortRanges rs) = none →
      KarmaRange.range_from_parsed_config dflt = .error e →
      KarmaRangesManager.init prev secs dflt = (.error e, sortRanges rs)) ∧
    (∀ (prev : List KarmaRange) (secs : List Section) (dflt : Section)
        (res : Except PyError KarmaRangesManager) (st : List KarmaRange),
      KarmaRangesManager.init prev secs dflt = (res, st) → ∀ r ∈ prev, r ∈ st) :=
  ⟨fun _ _ _ _ _ h => init_parse_fail h,
   fun _ _ _ _ _ h hchk => init_overlap_fail h hchk,
   fun _ _ _ _ _ h hchk hd => init_default_fail h hchk hd,
   fun _ _ _ _ _ h => init_state_mem h⟩

/-- C4 witness: the overlap-failure path applied to scenario 2 — the error is
returned and the sorted appended entries remain as the class-level state. -/
theorem spec_C4_witness :
    appendLoop [] [secA, secB] = (none, [rangeA, rangeB]) ∧
    static_ranges_check (sortRanges [rangeA, rangeB]) = some ("b", "a") ∧
    KarmaRangesManager.init [] [secA, secB] secDefault =
      (.error (.configParseError (overlapMsg "b" "a")), sortRanges [rangeA, rangeB]) :=
  ⟨by decide, by decide,
    spec_C4.2.1 [] [secA, secB] secDefault [rangeA, rangeB] ("b", "a")
      (by decide) (by decide)⟩

/-- C2: (a) in every successfully constructed registry the closed intervals of
any two distinct tiers are disjoint; (b) whenever two parsed tiers' closed
intervals intersect, construction fails with the overlap `ConfigParseError`
naming an adjacent offending pair of the sorted list — the adjacent-pair test
`ranges[i].min_range ≤ ranges[i-1].max_range` over the list sorted ascending
by `min_range` detects every such overlap. -/
theorem spec_C2 :
    (∀ (prev : List KarmaRange) (secs : List Section) (dflt : Section)
        (m : KarmaRangesManager) (st : List KarmaRange),
      KarmaRangesManager.init prev secs dflt = (.ok m, st) →
      ∀ i j, ∀ hi : i < m.ranges.length, ∀ hj : j < m.ranges.length, i ≠ j →
        ¬ intersects (m.ranges[i]) (m.ranges[j])) ∧
    (∀ (prev : List KarmaRange) (secs : List Section) (dflt : Section)
        (rs : List KarmaRange),
      appendLoop prev secs = (none, rs) →
      (∃ i j, ∃ hi : i < rs.length, ∃ hj : j < rs.length,
        i ≠ j ∧ intersects (rs[i]) (rs[j])) →
      ∃ n1 n2,
        (KarmaRangesManager.init prev secs dflt).1 =
          .error (.configParseError (overlapMsg n1 n2)) ∧
        ∃ k, ∃ hk : k + 1 < (sortRanges rs).length,
          n1 = ((sortRanges rs)[k + 1]).name ∧ n2 = ((sortRanges rs)[k]).name ∧
          ((sortRanges rs)[k + 1]).min_range ≤ ((sortRanges rs)[k]).max_range) := by
  constructor
  · intro prev secs dflt m st h i j hi hj hij
    obtain ⟨hs, hg, -⟩ := init_ok_inv h
    exact disjoint_of_sorted_gap hs hg hi hj hij
  · intro prev secs dflt rs hap hex
    have hperm : List.Perm rs (sortRanges rs) := (List.perm_insertionSort byMin rs).symm
    have hex2 := overlap_transfer hperm hex
    have hsort : SortedByMin (sortRanges rs) := List.sorted_insertionSort byMin rs
    obtain ⟨p, hchk⟩ := check_fires_of_intersects hsort hex2
    refine ⟨p.1, p.2, ?_, static_ranges_check_some hchk⟩
    rw [init_overlap_fail hap hchk]

/-- C2 witness: scenario 2 — tiers `[0,10]` and `[5,15]` intersect (at 5), so
construction fails naming `"b"` and `"a"`; and in the successfully built
scenario-1 registry the distinct tiers `toxic` and `neutral` are disjoint. -/
theorem spec_C2_witness :
    (∃ n1 n2,
      (KarmaRangesManager.init [] [secA, secB] secDefault).1 =
        .error (.configParseError (overlapMsg n1 n2)) ∧
      ∃ k, ∃ hk : k + 1 < (sortRanges [rangeA, rangeB]).length,
        n1 = ((sortRanges [rangeA, rangeB])[k + 1]).name ∧
        n2 = ((sortRanges [rangeA, rangeB])[k]).name ∧
        ((sortRanges [rangeA, rangeB])[k + 1]).min_range ≤
          ((sortRanges [rangeA, rangeB])[k]).max_range) ∧
    ¬ intersects rangeToxic rangeNeutral :=
  ⟨spec_C2.2 [] [secA, secB] secDefault [rangeA, rangeB] (by decide)
      ⟨0, 1, by decide, by decide, by decide,
        ⟨ExtInt.ofInt 5, by decide, by decide, by decide, by decide⟩⟩,
   spec_C2.1 [] [secToxic, secNeutral, secPositive] secDefault mgrS1
      [rangeToxic, rangeNeutral, rangePositive] (by decide) 0 1
      (by decide) (by decide) (by decide)⟩

/-- C1 counterexample: the reversed section builds successfully into a
registry containing the tier `rev` with `min_range = 10`, yet looking up its
own `min_range` yields the not-found error instead of the tier — so
`lookup(T.min_range) = T` fails for a successfully built registry (the code
never validates `min_range ≤ max_range`). -/
theorem spec_C1_counterexample :
    (KarmaRangesManager.init [] [secRev] secDefault).1 = .ok mgrRev ∧
    rangeRev ∈ mgrRev.ranges ∧
    rangeRev.min_range = ExtInt.ofInt 10 ∧
    KarmaRangesManager.get_range_by_karma mgrRev 10 =
      .error (.configParseError ("No ranges contain karma: " ++ toString (10 : Int))) := by
  exact ⟨by decide, by decide, by decide, by decide⟩

/-- C1 amended: for every successfully built registry, (a) the lookup returns
tier T iff T is in the registry and `T.min_range ≤ v ≤ T.max_range` (bounds
inclusive); (b) when no tier's interval contains v the lookup yields the
not-found `ConfigParseError`; (c) `lookup(T.min_range)` and
`lookup(T.max_range)` return T for every tier T whose bounds are finite
integers `a ≤ b` — the boundary property cannot hold for a reversed tier
(`min_range > max_range`), which the unvalidated parser admits, nor be posed
for infinite bounds, since lookup takes an integer. -/
theorem spec_C1 :
    (∀ (prev : List KarmaRange) (secs : List Section) (dflt : Section)
        (m : KarmaRangesManager) (st : List KarmaRange),
      KarmaRangesManager.init prev secs dflt = (.ok m, st) →
      ∀ (v : Int) (T : KarmaRange),
        (m.get_range_by_karma v = .ok T ↔
          T ∈ m.ranges ∧ T.min_range ≤ ExtInt.ofInt v ∧ ExtInt.ofInt v ≤ T.max_range)) ∧
    (∀ (prev : List KarmaRange) (secs : List Section) (dflt : Section)
        (m : KarmaRangesManager) (st : List KarmaRange),
      KarmaRangesManager.init prev secs dflt = (.ok m, st) →
      ∀ v : Int,
        (∀ T ∈ m.ranges,
          ¬ (T.min_range ≤ ExtInt.ofInt v ∧ ExtInt.ofInt v ≤ T.max_range)) →
        m.get_range_by_karma v =
          .error (.configParseError ("No ranges contain karma: " ++ toString v))) ∧
    (∀ (prev : List KarmaRange) (secs : List Section) (dflt : Section)
        (m : KarmaRangesManager) (st : List KarmaRange),
      KarmaRangesManager.init prev secs dflt = (.ok m, st) →
      ∀ T ∈ m.ranges, ∀ a b : Int,
        T.min_range = ExtInt.ofInt a → T.max_range = ExtInt.ofInt b → a ≤ b →
        m.get_range_by_karma a = .ok T ∧ m.get_range_by_karma b = .ok T) := by
  refine ⟨?_, ?_, ?_⟩
  · intro prev secs dflt m st h v T
    obtain ⟨hs, hg, -⟩ := init_ok_inv h
    exact (get_range_ok_iff hs hg).trans
      (and_congr_right fun _ => KarmaRange.eq_int_iff)
  · intro prev secs dflt m st h v hnone
    apply get_range_error_of_no_match
    intro T hT heq
    exact hnone T hT (KarmaRange.eq_int_iff.mp heq)
  · intro prev secs dflt m st h T hT a b hmin hmax hab
    obtain ⟨hs, hg, -⟩ := init_ok_inv h
    constructor
    · exact (get_range_ok_iff hs hg).mpr
        ⟨hT, KarmaRange.eq_int_iff.mpr
          ⟨le_of_eq hmin, by rw [hmax]; exact ExtInt.ofInt_le_ofInt.mpr hab⟩⟩
    · exact (get_range_ok_iff hs hg).mpr
        ⟨hT, KarmaRange.eq_int_iff.mpr
          ⟨by rw [hmin]; exact ExtInt.ofInt_le_ofInt.mpr hab, le_of_eq hmax.symm⟩⟩

/-- C1 witness: scenario 1 — `lookup(10)` is `positive`, `lookup(0)` is
`neutral`, `lookup(-10)` is `toxic` (both boundary lookups land in the tier
whose bound they match); scenario 3 — `lookup(15)` in the gapped registry
yields the not-found error; and the boundary part applied to the finite tier
`[0,10]` of the gapped registry. -/
theorem spec_C1_witness :
    KarmaRangesManager.get_range_by_karma mgrS1 10 = .ok rangePositive ∧
    KarmaRangesManager.get_range_by_karma mgrS1 0 = .ok rangeNeutral ∧
    KarmaRangesManager.get_range_by_karma mgrS1 (-10) = .ok rangeToxic ∧
    KarmaRangesManager.get_range_by_karma mgrGap 15 =
      .error (.configParseError ("No ranges contain karma: " ++ toString (15 : Int))) ∧
    KarmaRangesManager.get_range_by_karma mgrGap 0 = .ok rangeA ∧
    KarmaRangesManager.get_range_by_karma mgrGap 10 = .ok rangeA :=
  ⟨(spec_C1.1 [] [secToxic, secNeutral, secPositive] secDefault mgrS1
      [rangeToxic, rangeNeutral, rangePositive] (by decide) 10 rangePositive).mpr
      ⟨by decide, by decide, by decide⟩,
   (spec_C1.1 [] [secToxic, secNeutral, secPositive] secDefault mgrS1
      [rangeToxic, rangeNeutral, rangePositive] (by decide) 0 rangeNeutral).mpr
      ⟨by decide, by decide, by decide⟩,
   (spec_C1.1 [] [secToxic, secNeutral, secPositive] secDefault mgrS1
      [rangeToxic, rangeNeutral, rangePositive] (by decide) (-10) rangeToxic).mpr
      ⟨by decide, by decide, by decide⟩,
   spec_C1.2.1 [] [secA, secGapB] secDefault mgrGap [rangeA, rangeGapB]
      (by decide) 15 (by decide),
   (spec_C1.2.2 [] [secA, secGapB] secDefault mgrGap [rangeA, rangeGapB]
      (by decide) rangeA (by decide) 0 10 (by decide) (by decide) (by decide)).1,
   (spec_C1.2.2 [] [secA, secGapB] secDefault mgrGap [rangeA, rangeGapB]
      (by decide) rangeA (by decide) 0 10 (by decide) (by decide) (by decide)).2⟩

/-- C3 counterexample: in the gapped scenario-3 registry, `lookup(15)` fails —
but with `ConfigParseError`, the very exception class raised by the fatal
construction-time configuration errors (compare the overlap failure), not with
the internal `NotFound`, which `get_range_by_karma` catches and converts. -/
theorem spec_C3_counterexample :
    (KarmaRangesManager.init [] [secA, secGapB] secDefault).1 = .ok mgrGap ∧
    KarmaRangesManager.get_range_by_karma mgrGap 15 =
      .error (.configParseError ("No ranges contain karma: " ++ toString (15 : Int))) ∧
    KarmaRangesManager.get_range_by_karma mgrGap 15 ≠ .error .notFound ∧
    (KarmaRangesManager.init [] [secA, secB] secDefault).1 =
      .error (.configParseError "Ranges \"b\" and \"a\" overlap") := by
  exact ⟨by decide, by decide, by decide, by decide⟩

/-- C3 amended: when the binary search signals `NotFound` (no tier contains the
value), `get_range_by_karma` catches it and raises `ConfigParseError` — the
same exception class as the construction-time configuration errors — naming
the karma value; the registry does not substitute the default spec: the result
is identical whatever `default_range` holds. -/
theorem spec_C3 (rs : List KarmaRange) (d1 d2 : KarmaRange) (k : Int)
    (h : binary_search k rs = none) :
    KarmaRangesManager.get_range_by_karma ⟨rs, d1⟩ k =
      .error (.configParseError ("No ranges contain karma: " ++ toString k)) ∧
    KarmaRangesManager.get_range_by_karma ⟨rs, d1⟩ k =
      KarmaRangesManager.get_range_by_karma ⟨rs, d2⟩ k := by
  constructor
  · unfold KarmaRangesManager.get_range_by_karma
    dsimp only
    rw [h]
  · rfl

/-- C3 witness: the gap value 15 of scenario 3 — the search misses, the lookup
returns the `ConfigParseError`, and swapping the default range for a different
one leaves the result unchanged. -/
theorem spec_C3_witness :
    binary_search 15 [rangeA, rangeGapB] = none ∧
    KarmaRangesManager.get_range_by_karma ⟨[rangeA, rangeGapB], rangeDefault⟩ 15 =
      .error (.configParseError ("No ranges contain karma: " ++ toString (15 : Int))) ∧
    KarmaRangesManager.get_range_by_karma ⟨[rangeA, rangeGapB], rangeDefault⟩ 15 =
      KarmaRangesManager.get_range_by_karma ⟨[rangeA, rangeGapB], rangeNeutral⟩ 15 :=
  ⟨by decide,
   (spec_C3 [rangeA, rangeGapB] rangeDefault rangeNeutral 15 (by decide)).1,
   (spec_C3 [rangeA, rangeGapB] rangeDefault rangeNeutral 15 (by decide)).2⟩
